import Mathlib

/-!
Verification of the shared data-model contracts of the Aethelgard saga
repository (`src/contracts/shared_models.py`).

The Python source defines pydantic v2 models.  We embed them shallowly:

* each pydantic model becomes a Lean structure holding the validated field
  values;
* construction of a model instance becomes an explicit
  `mk… : … → Except String …` function that replays pydantic v2 validation
  semantics: fields are validated in declaration order, `Field(...)`
  constraints run before the `@field_validator` for the same field, an
  `after`-mode field validator receives in `info.data` only the fields
  declared (and successfully validated) *before* the current one, and field
  validators do not run at all for fields that were not supplied (the
  declared default is used unvalidated);
* `Optional[X] = None` fields whose validator only runs when the field is
  supplied are embedded as `Option (Option X)`: `none` means the field was
  omitted, `some v` means the value `v` (possibly `None`, i.e. `none`) was
  supplied explicitly;
* pydantic raises `ValidationError` / `ValueError`; we return
  `Except.error`.  Pydantic collects the errors of all fields while we stop
  at the first one; a construction succeeds in the embedding exactly when it
  succeeds in pydantic, and on success `info.data` contents agree, so the
  `.ok` behaviour (the only thing the claims depend on besides rejection)
  is identical.
* Python `float` telemetry measurements are embedded as `Rat`; no claim
  depends on float rounding.
-/

namespace Aethelgard

/-- DifficultyLevel enum (source lines 35-39). -/
inductive DifficultyLevel where
  | beginner
  | intermediate
  | advanced
deriving DecidableEq, Repr

/-- Mode enum, AXIS AI pedagogical modes (source lines 42-46). -/
inductive Mode where
  | coach
  | hybrid
  | socratic
deriving DecidableEq, Repr

/-- Library enum, approved Python libraries (source lines 49-56). -/
inductive Library where
  | core_python
  | numpy
  | pandas
  | matplotlib
  | seaborn
  | scikit_learn
deriving DecidableEq, Repr

/-- BloomsLevel enum (source lines 59-66). -/
inductive BloomsLevel where
  | remember
  | understand
  | apply
  | analyze
  | evaluate
  | create
deriving DecidableEq, Repr

/-- QuestionType enum (source lines 69-75). -/
inductive QuestionType where
  | multiple_choice
  | true_false
  | fill_blank
  | code_output
  | code_writing
deriving DecidableEq, Repr

/-- CitationSource enum (source lines 78-81). -/
inductive CitationSource where
  | vector
  | web
deriving DecidableEq, Repr

/-- Citation model (source lines 88-96).  Its `model_config` sets
`{"frozen": True}` (line 96). -/
structure Citation where
  source : CitationSource
  title : String
  locator : String
  url : Option String := none
  license : Option String := none
deriving DecidableEq, Repr

/-- CodeExample model (source lines 99-105).  Its `model_config` sets
`{"frozen": True}` (line 105). -/
structure CodeExample where
  code : String
  expected_output : Option String := none
  runnable : Bool := true
deriving DecidableEq, Repr

/-- GateStatus model, a quality-gate check result (source lines 108-112). -/
structure GateStatus where
  name : String
  passed : Bool
  details : Option String := none
deriving DecidableEq, Repr

/-- Telemetry model (source lines 115-137).  Python floats are embedded as
`Rat`.  Its `Field` bounds (for example `coverage_score` in [0,1]) are not
involved in any claim: a `QualityReport` receives an already-constructed
`Telemetry` instance, which pydantic v2 accepts without re-validation. -/
structure Telemetry where
  run_id : String
  trace_url : Option String := none
  model : String
  provider : String
  prompt_version : String
  graph_version : String
  coverage_score : Rat
  citation_density : Rat
  unique_sources : Int
  mode_ratio : Rat
  scaffold_depth : Int
  exec_ok : Bool
  latency_ms : Int
  tokens : Int
deriving DecidableEq, Repr

/-- ValidationIssue model (source lines 273-279).  The `severity` field is
`Literal["critical", "high", "medium", "low"]` in the source; instances
handed to a `QualityReport` are already validated. -/
structure ValidationIssue where
  severity : String
  category : String
  message : String
  suggestion : Option String := none
  location : Option String := none
deriving DecidableEq, Repr

/-- AethelgardConcept model, validated field values (source lines 144-204). -/
structure AethelgardConcept where
  concept_id : String
  title : String
  problem : String
  system : String
  win : String
  code_examples : List CodeExample
  provisional_citations : List Citation := []
  mode : Mode := Mode.coach
  bloom : Option BloomsLevel := none
  difficulty : DifficultyLevel
  prerequisites : List String := []
  libraries : List Library := []
  tags : List String := []
  created_at : Option String := none
deriving DecidableEq, Repr

/-- Question model, validated field values (source lines 207-266). -/
structure Question where
  question_id : String
  concept_id : String
  question_text : String
  question_type : QuestionType
  options : Option (List String) := none
  correct_answer : String
  difficulty : DifficultyLevel
  blooms_level : BloomsLevel
  explanation : Option String := none
  hints : Option (List String) := none
  created_at : Option String := none
deriving DecidableEq, Repr

/-- Character class of the pydantic pattern `^[a-z0-9-]+$` used for
`question_id` and `concept_id` (source lines 220-221). -/
def isIdChar (c : Char) : Bool :=
  decide ((Char.ofNat 97 ≤ c ∧ c ≤ Char.ofNat 122) ∨
    (Char.ofNat 48 ≤ c ∧ c ≤ Char.ofNat 57) ∨ c = Char.ofNat 45)

/-- Anchored match of the pattern `^[a-z0-9-]+$`: at least one character,
all of them lowercase latin letters, digits, or a hyphen. -/
def matchesIdPattern (s : String) : Bool :=
  (!s.data.isEmpty) && s.data.all isIdChar

/-- Embedding of `Question.validate_options` (source lines 247-266).  The
first argument is `info.data.get('question_type')`: `question_type` is
declared before `options`, so on any run where `question_type` validated it
is present.  Python truthiness: `not v` holds for `None` and for the empty
list, and `len(v) > 6` is only reached when the first check did not raise. -/
def validate_options (question_type : Option QuestionType)
    (v : Option (List String)) : Except String (Option (List String)) :=
  if question_type = some QuestionType.multiple_choice ∧
      (v = none ∨ v = some [] ∨ (v.getD []).length < 2) then
    Except.error "multiple_choice requires at least 2 options"
  else if question_type = some QuestionType.multiple_choice ∧
      (v.getD []).length > 6 then
    Except.error "multiple_choice allows maximum 6 options"
  else if question_type = some QuestionType.true_false ∧
      v ≠ some ["True", "False"] then
    Except.error "true_false requires options=[True, False]"
  else if (question_type = some QuestionType.fill_blank ∨
      question_type = some QuestionType.code_output ∨
      question_type = some QuestionType.code_writing) ∧ v ≠ none then
    Except.error "question type should not have options"
  else
    Except.ok v

/-- Pydantic semantics for the `options` field of `Question`: the field
defaults to `None` and field validators do not run on defaulted fields, so
`validate_options` runs only when `options` was supplied. -/
def validateOptionsField (question_type : QuestionType)
    (options : Option (Option (List String))) :
    Except String (Option (List String)) :=
  match options with
  | none => Except.ok none
  | some v => validate_options (some question_type) v

/-- Raw constructor arguments for `Question`.  `options` and `created_at`
distinguish "field omitted" (`none`) from "value supplied" (`some v`),
because their validators only run when the field is supplied. -/
structure QuestionInput where
  question_id : String
  concept_id : String
  question_text : String
  question_type : QuestionType
  options : Option (Option (List String)) := none
  correct_answer : String
  difficulty : DifficultyLevel
  blooms_level : BloomsLevel
  explanation : Option String := none
  hints : Option (List String) := none
  created_at : Option (Option String) := none
deriving Repr

/-- Construction of a `Question` (source lines 207-266), replaying pydantic
v2 validation in field-declaration order: `question_id` and `concept_id`
pattern `^[a-z0-9-]+$`; `question_text` length 10-500; `options` via
`validate_options` when supplied; `correct_answer` min length 1;
`created_at` via the before-mode `set_created_at` (supplied `None` becomes
the current timestamp `now`; an omitted field keeps the default `None`
because validators do not run on defaults). -/
def mkQuestion (now : String) (inp : QuestionInput) : Except String Question :=
  if matchesIdPattern inp.question_id = false then
    Except.error "question_id must match [a-z0-9-]+"
  else if matchesIdPattern inp.concept_id = false then
    Except.error "concept_id must match [a-z0-9-]+"
  else if inp.question_text.length < 10 ∨ 500 < inp.question_text.length then
    Except.error "question_text length must be 10..500"
  else
    match validateOptionsField inp.question_type inp.options with
    | Except.error e => Except.error e
    | Except.ok options =>
      if inp.correct_answer.length < 1 then
        Except.error "correct_answer must be non-empty"
      else
        Except.ok
          { question_id := inp.question_id
            concept_id := inp.concept_id
            question_text := inp.question_text
            question_type := inp.question_type
            options := options
            correct_answer := inp.correct_answer
            difficulty := inp.difficulty
            blooms_level := inp.blooms_level
            explanation := inp.explanation
            hints := inp.hints
            created_at :=
              match inp.created_at with
              | none => none
              | some none => some now
              | some (some s) => some s }

/-- QualityReport model, validated field values (source lines 282-401). -/
structure QualityReport where
  item_id : String
  item_type : String
  overall_score : Int
  groundedness_citation_score : Int
  technical_correctness_score : Int
  people_first_pedagogy_score : Int
  psw_actionability_score : Int
  mode_fidelity_score : Int
  self_paced_scaffolding_score : Int
  retrieval_quality_score : Int
  clarity_score : Int
  bloom_alignment_score : Int
  people_first_language_score : Int
  gates : List GateStatus
  telemetry : Telemetry
  issues : List ValidationIssue
  strengths : List String
  suggestions : List String
  passes_quality : Bool
  validated_at : String
  validator_version : String := "2.0"
deriving DecidableEq, Repr

/-- Sum of the ten criterion-score fields of a report, in rubric order. -/
def criteriaSum (r : QualityReport) : Int :=
  r.groundedness_citation_score + r.technical_correctness_score +
    r.people_first_pedagogy_score + r.psw_actionability_score +
    r.mode_fidelity_score + r.self_paced_scaffolding_score +
    r.retrieval_quality_score + r.clarity_score + r.bloom_alignment_score +
    r.people_first_language_score

/-- Embedding of `QualityReport.validate_overall_score` (source lines
350-369).  The ten arguments are the values of
`info.data.get(criterion, 0)` for the ten criterion fields, in source
order; an argument is `none` when the corresponding field is absent from
`info.data` (pydantic then yields the default `0`). -/
def validate_overall_score (v : Int)
    (g t p a m s r c b l : Option Int) : Except String Int :=
  let scores : List Int :=
    [g.getD 0, t.getD 0, p.getD 0, a.getD 0, m.getD 0,
      s.getD 0, r.getD 0, c.getD 0, b.getD 0, l.getD 0]
  let total := scores.sum
  if v ≠ total then
    Except.error "overall_score must equal sum of criteria scores"
  else
    Except.ok v

/-- Core gate-name set of `validate_passes_quality` (source line 386). -/
def coreGates : List String :=
  ["coverage_score", "citation_density", "exec_ok", "scope_ok"]

/-- Embedding of the gate conjunct of `validate_passes_quality` (source
lines 387-391): `all(gate.passed for gate in gates if gate.name in
core_gates)`. -/
def gatesPass (gates : List GateStatus) : Bool :=
  (gates.filter (fun gate => coreGates.contains gate.name)).all
    (fun gate => gate.passed)

/-- The recomputed verdict `expected_pass` of `validate_passes_quality`
(source lines 383-393): `score_pass and gates_pass` with
`score_pass = overall_score >= 85`. -/
def expected_pass (overall_score : Int) (gates : List GateStatus) : Bool :=
  decide (85 ≤ overall_score) && gatesPass gates

/-- Embedding of `QualityReport.validate_passes_quality` (source lines
371-401).  The two `Option` arguments are `info.data.get('overall_score',
0)` and `info.data.get('gates', [])`; both fields are declared before
`passes_quality`, so on a successful construction both are present. -/
def validate_passes_quality (v : Bool) (overall_score : Option Int)
    (gates : Option (List GateStatus)) : Except String Bool :=
  let score := overall_score.getD 0
  let gs := gates.getD []
  if v ≠ expected_pass score gs then
    Except.error "passes_quality mismatch"
  else
    Except.ok v

/-- Raw constructor arguments for `QualityReport`.  `validated_at` is a
required field whose before-mode validator turns a supplied `None` into the
current timestamp, so it is embedded as `Option String`. -/
structure QualityReportInput where
  item_id : String
  item_type : String
  overall_score : Int
  groundedness_citation_score : Int
  technical_correctness_score : Int
  people_first_pedagogy_score : Int
  psw_actionability_score : Int
  mode_fidelity_score : Int
  self_paced_scaffolding_score : Int
  retrieval_quality_score : Int
  clarity_score : Int
  bloom_alignment_score : Int
  people_first_language_score : Int
  gates : List GateStatus
  telemetry : Telemetry
  issues : List ValidationIssue
  strengths : List String
  suggestions : List String
  passes_quality : Bool
  validated_at : Option String
  validator_version : String := "2.0"
deriving Repr

/-- The record stored by a successful `QualityReport` construction: every
field keeps its supplied value, except that `overall_score` and
`passes_quality` carry the values returned by their field validators and a
`validated_at` supplied as `None` was replaced by the current timestamp by
the before-mode `set_validated_at`. -/
def buildQualityReport (now : String) (inp : QualityReportInput)
    (overall_score : Int) (passes_quality : Bool) : QualityReport :=
  { item_id := inp.item_id
    item_type := inp.item_type
    overall_score := overall_score
    groundedness_citation_score := inp.groundedness_citation_score
    technical_correctness_score := inp.technical_correctness_score
    people_first_pedagogy_score := inp.people_first_pedagogy_score
    psw_actionability_score := inp.psw_actionability_score
    mode_fidelity_score := inp.mode_fidelity_score
    self_paced_scaffolding_score := inp.self_paced_scaffolding_score
    retrieval_quality_score := inp.retrieval_quality_score
    clarity_score := inp.clarity_score
    bloom_alignment_score := inp.bloom_alignment_score
    people_first_language_score := inp.people_first_language_score
    gates := inp.gates
    telemetry := inp.telemetry
    issues := inp.issues
    strengths := inp.strengths
    suggestions := inp.suggestions
    passes_quality := passes_quality
    validated_at :=
      match inp.validated_at with
      | none => now
      | some s => s
    validator_version := inp.validator_version }

/-- Construction of a `QualityReport` (source lines 282-401), replaying
pydantic v2 validation in field-declaration order.  Crucially,
`overall_score` is declared on source line 311, *before* the ten criterion
fields on lines 314-323, so when `validate_overall_score` runs none of the
criterion fields is in `info.data` yet and every `info.data.get(name, 0)`
is passed as `none` here.  `gates` (line 326) and `overall_score` are
declared before `passes_quality` (line 337), so `validate_passes_quality`
receives both. -/
def mkQualityReport (now : String) (inp : QualityReportInput) :
    Except String QualityReport :=
  if inp.item_type ≠ "content" ∧ inp.item_type ≠ "question" then
    Except.error "item_type must be content or question"
  else if inp.overall_score < 0 ∨ 100 < inp.overall_score then
    Except.error "overall_score must be in 0..100"
  else
    match validate_overall_score inp.overall_score
        none none none none none none none none none none with
    | Except.error e => Except.error e
    | Except.ok overall_score =>
      if inp.groundedness_citation_score < 0 ∨
          20 < inp.groundedness_citation_score then
        Except.error "groundedness_citation_score must be in 0..20"
      else if inp.technical_correctness_score < 0 ∨
          15 < inp.technical_correctness_score then
        Except.error "technical_correctness_score must be in 0..15"
      else if inp.people_first_pedagogy_score < 0 ∨
          15 < inp.people_first_pedagogy_score then
        Except.error "people_first_pedagogy_score must be in 0..15"
      else if inp.psw_actionability_score < 0 ∨
          10 < inp.psw_actionability_score then
        Except.error "psw_actionability_score must be in 0..10"
      else if inp.mode_fidelity_score < 0 ∨ 10 < inp.mode_fidelity_score then
        Except.error "mode_fidelity_score must be in 0..10"
      else if inp.self_paced_scaffolding_score < 0 ∨
          10 < inp.self_paced_scaffolding_score then
        Except.error "self_paced_scaffolding_score must be in 0..10"
      else if inp.retrieval_quality_score < 0 ∨
          10 < inp.retrieval_quality_score then
        Except.error "retrieval_quality_score must be in 0..10"
      else if inp.clarity_score < 0 ∨ 5 < inp.clarity_score then
        Except.error "clarity_score must be in 0..5"
      else if inp.bloom_alignment_score < 0 ∨
          3 < inp.bloom_alignment_score then
        Except.error "bloom_alignment_score must be in 0..3"
      else if inp.people_first_language_score < 0 ∨
          2 < inp.people_first_language_score then
        Except.error "people_first_language_score must be in 0..2"
      else
        match validate_passes_quality inp.passes_quality
            (some overall_score) (some inp.gates) with
        | Except.error e => Except.error e
        | Except.ok passes_quality =>
          Except.ok (buildQualityReport now inp overall_score passes_quality)

/-- Union `AethelgardConcept | Question`, the element type of
`BatchValidationRequest.items` (source line 410). -/
inductive BatchItem where
  | concept (c : AethelgardConcept)
  | question (q : Question)
deriving DecidableEq, Repr

/-- BatchValidationRequest model (source lines 408-412). -/
structure BatchValidationRequest where
  items : List BatchItem
  validation_type : String := "full"
  strict : Bool := true
deriving DecidableEq, Repr

/-- Construction of a `BatchValidationRequest` (source lines 408-412):
`items` carries `Field(..., min_length=1, max_length=100)`;
`validation_type` is `Literal["quick", "full"]`.  The length bounds depend
only on the number of items, never on their contents. -/
def mkBatchValidationRequest (items : List BatchItem)
    (validation_type : String) (strict : Bool) :
    Except String BatchValidationRequest :=
  if items.length < 1 then
    Except.error "items must have at least 1 item"
  else if 100 < items.length then
    Except.error "items must have at most 100 items"
  else if validation_type ≠ "quick" ∧ validation_type ≠ "full" then
    Except.error "validation_type must be quick or full"
  else
    Except.ok
      { items := items, validation_type := validation_type, strict := strict }

/-- BatchValidationResponse model (source lines 415-428). -/
structure BatchValidationResponse where
  total_items : Int
  passed : Int
  failed : Int
  reports : List QualityReport
  timestamp : String
deriving DecidableEq, Repr

/-- Construction of a `BatchValidationResponse` (source lines 415-428).
The model declares no field constraint and no cross-field validator: the
three counters are plain ints.  The only validator is the before-mode
`set_timestamp`, which replaces a supplied `None` by the current
timestamp. -/
def mkBatchValidationResponse (now : String) (total_items passed failed : Int)
    (reports : List QualityReport) (timestamp : Option String) :
    Except String BatchValidationResponse :=
  Except.ok
    { total_items := total_items
      passed := passed
      failed := failed
      reports := reports
      timestamp :=
        match timestamp with
        | none => now
        | some s => s }

/-- Frozen flag of `Citation.model_config` (source line 96). -/
def citationFrozen : Bool := true

/-- Frozen flag of `CodeExample.model_config` (source line 105). -/
def codeExampleFrozen : Bool := true

/-- Frozen flag of `QualityReport`: the class declares no `model_config`
(source lines 282-341), so pydantic's default `frozen=False` applies. -/
def qualityReportFrozen : Bool := false

/-- Pydantic v2 attribute assignment `report.overall_score = v`: raises
`ValidationError` when the model is frozen; otherwise sets the field in
place (and, since `validate_assignment` is not enabled anywhere in the
source, without re-running any validator). -/
def setReportOverallScore (r : QualityReport) (v : Int) :
    Except String QualityReport :=
  if qualityReportFrozen then
    Except.error "instance is frozen"
  else
    Except.ok { r with overall_score := v }

/-- Pydantic v2 attribute assignment `report.passes_quality = v` (same
semantics as `setReportOverallScore`). -/
def setReportPassesQuality (r : QualityReport) (v : Bool) :
    Except String QualityReport :=
  if qualityReportFrozen then
    Except.error "instance is frozen"
  else
    Except.ok { r with passes_quality := v }

/-- Pydantic v2 attribute assignment `citation.title = v` on the frozen
`Citation` model. -/
def setCitationTitle (c : Citation) (v : String) : Except String Citation :=
  if citationFrozen then
    Except.error "instance is frozen"
  else
    Except.ok { c with title := v }

/-- Truth test for an `Except` value, mirroring "construction succeeded". -/
def exceptOk {α : Type} (e : Except String α) : Bool :=
  match e with
  | Except.ok _ => true
  | Except.error _ => false

/-- Telemetry fixture, after `example_quality_report` (source lines
587-602), with the float fields as rationals. -/
def exampleTelemetry : Telemetry :=
  { run_id := "run-abc123"
    trace_url := some "https://langsmith.example.com/runs/abc123"
    model := "gpt-4o-latest"
    provider := "openai"
    prompt_version := "v2.3"
    graph_version := "v1.0"
    coverage_score := (78 : Rat) / 100
    citation_density := (12 : Rat) / 10
    unique_sources := 3
    mode_ratio := (22 : Rat) / 100
    scaffold_depth := 2
    exec_ok := true
    latency_ms := 1200
    tokens := 1500 }

/-- The four core gates, all passing (source lines 579-584). -/
def allCoreGatesPass : List GateStatus :=
  [{ name := "coverage_score", passed := true },
    { name := "citation_density", passed := true },
    { name := "exec_ok", passed := true },
    { name := "scope_ok", passed := true }]

/-- The four core gates with `exec_ok` failed. -/
def gatesExecFail : List GateStatus :=
  [{ name := "coverage_score", passed := true },
    { name := "citation_density", passed := true },
    { name := "exec_ok", passed := false },
    { name := "scope_ok", passed := true }]

/-- The four core gates passing plus a failing gate with a name outside the
core set. -/
def gatesWithNoncoreFail : List GateStatus :=
  allCoreGatesPass ++ [{ name := "style_ok", passed := false }]

/-- Timestamp literal used for the concrete constructions. -/
def sampleTs : String := "2025-11-06T00:00:00Z"

/-- Constructor arguments for the spec's boundary rubric tuple
(20,15,15,10,10,10,10,5,3,2), whose sum is 100, supplied together with the
matching `overall_score = 100`. -/
def boundaryReportInput : QualityReportInput :=
  { item_id := "python-variables-01"
    item_type := "content"
    overall_score := 100
    groundedness_citation_score := 20
    technical_correctness_score := 15
    people_first_pedagogy_score := 15
    psw_actionability_score := 10
    mode_fidelity_score := 10
    self_paced_scaffolding_score := 10
    retrieval_quality_score := 10
    clarity_score := 5
    bloom_alignment_score := 3
    people_first_language_score := 2
    gates := allCoreGatesPass
    telemetry := exampleTelemetry
    issues := []
    strengths := []
    suggestions := []
    passes_quality := true
    validated_at := some sampleTs }

/-- Constructor arguments with `overall_score = 0` but criterion scores
(20,15,15,10,10,5,5,3,1,1) summing to 85. -/
def mismatchReportInput : QualityReportInput :=
  { item_id := "python-variables-01"
    item_type := "content"
    overall_score := 0
    groundedness_citation_score := 20
    technical_correctness_score := 15
    people_first_pedagogy_score := 15
    psw_actionability_score := 10
    mode_fidelity_score := 10
    self_paced_scaffolding_score := 5
    retrieval_quality_score := 5
    clarity_score := 3
    bloom_alignment_score := 1
    people_first_language_score := 1
    gates := allCoreGatesPass
    telemetry := exampleTelemetry
    issues := []
    strengths := []
    suggestions := []
    passes_quality := false
    validated_at := some sampleTs }

/-- The report produced from `mismatchReportInput`. -/
def mismatchReport : QualityReport :=
  { item_id := "python-variables-01"
    item_type := "content"
    overall_score := 0
    groundedness_citation_score := 20
    technical_correctness_score := 15
    people_first_pedagogy_score := 15
    psw_actionability_score := 10
    mode_fidelity_score := 10
    self_paced_scaffolding_score := 5
    retrieval_quality_score := 5
    clarity_score := 3
    bloom_alignment_score := 1
    people_first_language_score := 1
    gates := allCoreGatesPass
    telemetry := exampleTelemetry
    issues := []
    strengths := []
    suggestions := []
    passes_quality := false
    validated_at := sampleTs }

/-- Constructor arguments for an all-zero report with an empty gate list. -/
def zeroReportInput : QualityReportInput :=
  { item_id := "python-variables-01"
    item_type := "content"
    overall_score := 0
    groundedness_citation_score := 0
    technical_correctness_score := 0
    people_first_pedagogy_score := 0
    psw_actionability_score := 0
    mode_fidelity_score := 0
    self_paced_scaffolding_score := 0
    retrieval_quality_score := 0
    clarity_score := 0
    bloom_alignment_score := 0
    people_first_language_score := 0
    gates := []
    telemetry := exampleTelemetry
    issues := []
    strengths := []
    suggestions := []
    passes_quality := false
    validated_at := some sampleTs }

/-- The report produced from `zeroReportInput`. -/
def zeroReport : QualityReport :=
  { item_id := "python-variables-01"
    item_type := "content"
    overall_score := 0
    groundedness_citation_score := 0
    technical_correctness_score := 0
    people_first_pedagogy_score := 0
    psw_actionability_score := 0
    mode_fidelity_score := 0
    self_paced_scaffolding_score := 0
    retrieval_quality_score := 0
    clarity_score := 0
    bloom_alignment_score := 0
    people_first_language_score := 0
    gates := []
    telemetry := exampleTelemetry
    issues := []
    strengths := []
    suggestions := []
    passes_quality := false
    validated_at := sampleTs }

/-- Base constructor arguments for a multiple-choice question, after
`example_question` (source lines 538-556). -/
def mcQuestionInput : QuestionInput :=
  { question_id := "q-variables-mc-01"
    concept_id := "python-variables-01"
    question_text := "What happens when you assign a value to a variable?"
    question_type := QuestionType.multiple_choice
    options := some (some ["Alpha", "Beta", "Gamma", "Delta"])
    correct_answer := "Beta"
    difficulty := DifficultyLevel.beginner
    blooms_level := BloomsLevel.understand
    explanation := some "Variables are names that reference objects."
    hints := some ["Think about the reference model"]
    created_at := some (some sampleTs) }

/-- Multiple-choice arguments whose `correct_answer` is not a member of the
supplied options. -/
def mcBadAnswerInput : QuestionInput :=
  { mcQuestionInput with
      options := some (some ["Alpha", "Beta"])
      correct_answer := "Gamma" }

/-- Multiple-choice arguments with a single option. -/
def mcOneOptionInput : QuestionInput :=
  { mcQuestionInput with options := some (some ["Alpha"]) }

/-- Multiple-choice arguments with seven options. -/
def mcSevenOptionsInput : QuestionInput :=
  { mcQuestionInput with
      options := some (some ["A1", "A2", "A3", "A4", "A5", "A6", "A7"]) }

/-- Multiple-choice arguments with the `options` field omitted entirely. -/
def mcOmittedOptionsInput : QuestionInput :=
  { mcQuestionInput with options := none }

/-- Multiple-choice arguments supplying `options=None` explicitly. -/
def mcExplicitNoneInput : QuestionInput :=
  { mcQuestionInput with options := some none }

/-- True/false arguments with the exact options `["True", "False"]`. -/
def tfQuestionInput : QuestionInput :=
  { mcQuestionInput with
      question_id := "q-variables-tf-01"
      question_type := QuestionType.true_false
      options := some (some ["True", "False"])
      correct_answer := "True" }

/-- True/false arguments with options `["Yes", "No"]`. -/
def tfYesNoInput : QuestionInput :=
  { tfQuestionInput with options := some (some ["Yes", "No"]) }

/-- True/false arguments with the `options` field omitted entirely. -/
def tfOmittedOptionsInput : QuestionInput :=
  { tfQuestionInput with options := none }

/-- Fill-in-the-blank arguments supplied with an options list. -/
def fbOptionsInput : QuestionInput :=
  { mcQuestionInput with
      question_id := "q-variables-fb-01"
      question_type := QuestionType.fill_blank
      options := some (some ["Alpha"]) }

/-- With all ten criterion fields absent from `info.data`,
`validate_overall_score` accepts exactly the value 0. -/
theorem validate_overall_score_absent_ok (v w : Int) :
    validate_overall_score v none none none none none none none none none
      none = Except.ok w ↔ (v = 0 ∧ w = v) := by
  unfold validate_overall_score
  dsimp only
  split_ifs with h
  · simp only [Option.getD_none, List.sum_cons, List.sum_nil, add_zero] at h
    constructor
    · intro hc
      exact absurd hc (by simp)
    · intro hc
      omega
  · simp only [Option.getD_none, List.sum_cons, List.sum_nil, add_zero,
      not_not] at h
    simp [Except.ok.injEq]
    omega

/-- Success characterisation of `validate_passes_quality`. -/
theorem validate_passes_quality_ok (v b : Bool) (os : Option Int)
    (gs : Option (List GateStatus)) :
    validate_passes_quality v os gs = Except.ok b ↔
      (v = expected_pass (os.getD 0) (gs.getD []) ∧ b = v) := by
  unfold validate_passes_quality
  dsimp only
  split_ifs with h
  · constructor
    · intro hc
      exact absurd hc (by simp)
    · intro hc
      exact absurd hc.1 h
  · rw [not_not] at h
    simp [Except.ok.injEq, h]
    tauto

/-- Facts holding for every successful `QualityReport` construction: the
stored fields are the supplied ones, `overall_score` is forced to 0 by
`validate_overall_score` (the criterion fields are absent from `info.data`
when it runs), and `passes_quality` is forced to the recomputed verdict. -/
theorem mkQualityReport_ok_facts (now : String) (inp : QualityReportInput)
    (r : QualityReport) (h : mkQualityReport now inp = Except.ok r) :
    r.overall_score = inp.overall_score ∧ r.overall_score = 0 ∧
      r.gates = inp.gates ∧ r.passes_quality = inp.passes_quality ∧
      r.passes_quality = expected_pass r.overall_score r.gates ∧
      criteriaSum r =
        inp.groundedness_citation_score + inp.technical_correctness_score +
          inp.people_first_pedagogy_score + inp.psw_actionability_score +
          inp.mode_fidelity_score + inp.self_paced_scaffolding_score +
          inp.retrieval_quality_score + inp.clarity_score +
          inp.bloom_alignment_score + inp.people_first_language_score := by
  unfold mkQualityReport at h
  by_cases h1 : inp.item_type ≠ "content" ∧ inp.item_type ≠ "question"
  · rw [if_pos h1] at h
    cases h
  rw [if_neg h1] at h
  by_cases h2 : inp.overall_score < 0 ∨ 100 < inp.overall_score
  · rw [if_pos h2] at h
    cases h
  rw [if_neg h2] at h
  cases hos : validate_overall_score inp.overall_score
      none none none none none none none none none none with
  | error e =>
    rw [hos] at h
    cases h
  | ok os =>
    rw [hos] at h
    rw [validate_overall_score_absent_ok] at hos
    dsimp only at h
    by_cases h3 : inp.groundedness_citation_score < 0 ∨
        20 < inp.groundedness_citation_score
    · rw [if_pos h3] at h
      cases h
    rw [if_neg h3] at h
    by_cases h4 : inp.technical_correctness_score < 0 ∨
        15 < inp.technical_correctness_score
    · rw [if_pos h4] at h
      cases h
    rw [if_neg h4] at h
    by_cases h5 : inp.people_first_pedagogy_score < 0 ∨
        15 < inp.people_first_pedagogy_score
    · rw [if_pos h5] at h
      cases h
    rw [if_neg h5] at h
    by_cases h6 : inp.psw_actionability_score < 0 ∨
        10 < inp.psw_actionability_score
    · rw [if_pos h6] at h
      cases h
    rw [if_neg h6] at h
    by_cases h7 : inp.mode_fidelity_score < 0 ∨ 10 < inp.mode_fidelity_score
    · rw [if_pos h7] at h
      cases h
    rw [if_neg h7] at h
    by_cases h8 : inp.self_paced_scaffolding_score < 0 ∨
        10 < inp.self_paced_scaffolding_score
    · rw [if_pos h8] at h
      cases h
    rw [if_neg h8] at h
    by_cases h9 : inp.retrieval_quality_score < 0 ∨
        10 < inp.retrieval_quality_score
    · rw [if_pos h9] at h
      cases h
    rw [if_neg h9] at h
    by_cases h10 : inp.clarity_score < 0 ∨ 5 < inp.clarity_score
    · rw [if_pos h10] at h
      cases h
    rw [if_neg h10] at h
    by_cases h11 : inp.bloom_alignment_score < 0 ∨
        3 < inp.bloom_alignment_score
    · rw [if_pos h11] at h
      cases h
    rw [if_neg h11] at h
    by_cases h12 : inp.people_first_language_score < 0 ∨
        2 < inp.people_first_language_score
    · rw [if_pos h12] at h
      cases h
    rw [if_neg h12] at h
    cases hpq : validate_passes_quality inp.passes_quality
        (some os) (some inp.gates) with
    | error e =>
      rw [hpq] at h
      cases h
    | ok pq =>
      rw [hpq] at h
      rw [validate_passes_quality_ok] at hpq
      dsimp only at h
      cases h
      obtain ⟨hv0, hosv⟩ := hos
      obtain ⟨hpv, hpqv⟩ := hpq
      simp only [Option.getD_some] at hpv
      subst hosv hpqv
      exact ⟨rfl, hv0, rfl, rfl, hpv, rfl⟩

/-- A successful run of `validate_options` for a supplied multiple-choice
options value forces a list of 2 to 6 options. -/
theorem validate_options_mc_ok (v w : Option (List String))
    (h : validate_options (some QuestionType.multiple_choice) v =
      Except.ok w) :
    w = v ∧ ∃ l, v = some l ∧ 2 ≤ l.length ∧ l.length ≤ 6 := by
  unfold validate_options at h
  split_ifs at h with hc1 hc2 hc3 hc4
  all_goals cases h
  case neg.refl =>
    have hb : ¬(v = none ∨ v = some [] ∨ (v.getD []).length < 2) :=
      fun hx => hc1 ⟨rfl, hx⟩
    have hb2 : ¬((v.getD []).length > 6) := fun hx => hc2 ⟨rfl, hx⟩
    push_neg at hb
    cases v with
    | none => exact absurd rfl hb.1
    | some l =>
      refine ⟨rfl, l, rfl, ?_, ?_⟩
      · have := hb.2.2
        simpa using this
      · simpa using hb2

/-- A successful run of `validate_options` for a supplied true/false options
value forces exactly `["True", "False"]`. -/
theorem validate_options_tf_ok (v w : Option (List String))
    (h : validate_options (some QuestionType.true_false) v = Except.ok w) :
    w = v ∧ v = some ["True", "False"] := by
  unfold validate_options at h
  split_ifs at h with hc1 hc2 hc3 hc4
  all_goals cases h
  case neg.refl =>
    have hb : ¬(v ≠ some ["True", "False"]) := fun hx => hc3 ⟨rfl, hx⟩
    rw [not_not] at hb
    exact ⟨rfl, hb⟩

/-- For the three option-free question types, `validate_options` rejects
every supplied value other than `None`. -/
theorem validate_options_requires_none (t : QuestionType)
    (v : Option (List String))
    (ht : t = QuestionType.fill_blank ∨ t = QuestionType.code_output ∨
      t = QuestionType.code_writing)
    (hv : v ≠ none) :
    exceptOk (validate_options (some t) v) = false := by
  rcases ht with rfl | rfl | rfl <;>
    simp [validate_options, exceptOk, hv]

/-- Facts holding for every successful `Question` construction: the stored
question type is the supplied one and the stored options are the output of
the options-field validation step. -/
theorem mkQuestion_ok_facts (now : String) (inp : QuestionInput)
    (q : Question) (h : mkQuestion now inp = Except.ok q) :
    q.question_type = inp.question_type ∧
      validateOptionsField inp.question_type inp.options =
        Except.ok q.options := by
  unfold mkQuestion at h
  by_cases h1 : matchesIdPattern inp.question_id = false
  · rw [if_pos h1] at h
    cases h
  rw [if_neg h1] at h
  by_cases h2 : matchesIdPattern inp.concept_id = false
  · rw [if_pos h2] at h
    cases h
  rw [if_neg h2] at h
  by_cases h3 : inp.question_text.length < 10 ∨ 500 < inp.question_text.length
  · rw [if_pos h3] at h
    cases h
  rw [if_neg h3] at h
  cases hvo : validateOptionsField inp.question_type inp.options with
  | error e =>
    rw [hvo] at h
    cases h
  | ok opts =>
    rw [hvo] at h
    dsimp only at h
    by_cases h4 : inp.correct_answer.length < 1
    · rw [if_pos h4] at h
      cases h
    rw [if_neg h4] at h
    cases h
    exact ⟨rfl, rfl⟩

/-- When the `options` field is omitted, pydantic skips `validate_options`
entirely, so construction succeeds whenever the remaining field checks
pass, and the stored options value is the default `None`. -/
theorem mkQuestion_omitted_ok (now : String) (inp : QuestionInput)
    (hopt : inp.options = none)
    (h1 : matchesIdPattern inp.question_id = true)
    (h2 : matchesIdPattern inp.concept_id = true)
    (h3 : 10 ≤ inp.question_text.length) (h4 : inp.question_text.length ≤ 500)
    (h5 : 1 ≤ inp.correct_answer.length) :
    mkQuestion now inp = Except.ok
      { question_id := inp.question_id
        concept_id := inp.concept_id
        question_text := inp.question_text
        question_type := inp.question_type
        options := none
        correct_answer := inp.correct_answer
        difficulty := inp.difficulty
        blooms_level := inp.blooms_level
        explanation := inp.explanation
        hints := inp.hints
        created_at :=
          match inp.created_at with
          | none => none
          | some none => some now
          | some (some s) => some s } := by
  unfold mkQuestion
  rw [if_neg (by simp [h1]), if_neg (by simp [h2]), if_neg (by omega), hopt]
  dsimp only [validateOptionsField]
  rw [if_neg (by omega)]

/-- Supplying `options=None` explicitly to a multiple-choice question makes
`validate_options` run and reject, so construction never succeeds. -/
theorem mkQuestion_mc_explicit_none_error (now : String) (inp : QuestionInput)
    (ht : inp.question_type = QuestionType.multiple_choice)
    (hopt : inp.options = some none) :
    exceptOk (mkQuestion now inp) = false := by
  unfold mkQuestion
  by_cases h1 : matchesIdPattern inp.question_id = false
  · rw [if_pos h1]
    rfl
  rw [if_neg h1]
  by_cases h2 : matchesIdPattern inp.concept_id = false
  · rw [if_pos h2]
    rfl
  rw [if_neg h2]
  by_cases h3 : inp.question_text.length < 10 ∨ 500 < inp.question_text.length
  · rw [if_pos h3]
    rfl
  rw [if_neg h3]
  rw [hopt, ht]
  rfl

/-- Appending a gate whose name is outside the core set does not change the
core-gate conjunct. -/
theorem gatesPass_append_noncore (gates : List GateStatus) (g : GateStatus)
    (hg : coreGates.contains g.name = false) :
    gatesPass (gates ++ [g]) = gatesPass gates := by
  have hfg : List.filter (fun gate => coreGates.contains gate.name) [g] = [] := by
    simp only [List.filter_cons, List.filter_nil, hg]
    rfl
  unfold gatesPass
  rw [List.filter_append, hfg, List.append_nil]

/-- The verdict only looks at gates whose name is in the core set: filtering
the gate list down to the core-named gates leaves it unchanged. -/
theorem expected_pass_filter_core (os : Int) (gates : List GateStatus) :
    expected_pass os
        (gates.filter fun gate => coreGates.contains gate.name) =
      expected_pass os gates := by
  unfold expected_pass gatesPass
  rw [List.filter_filter]
  simp

/-- A gate list containing no core-named gate passes the core-gate conjunct
vacuously. -/
theorem gatesPass_all_noncore (gates : List GateStatus)
    (h : ∀ g ∈ gates, coreGates.contains g.name = false) :
    gatesPass gates = true := by
  unfold gatesPass
  have hf : gates.filter (fun gate => coreGates.contains gate.name) = [] := by
    rw [List.filter_eq_nil_iff]
    intro g hg
    simpa using h g hg
  rw [hf]
  rfl

/-- The question produced from `mcQuestionInput`. -/
def mcQuestion : Question :=
  { question_id := "q-variables-mc-01"
    concept_id := "python-variables-01"
    question_text := "What happens when you assign a value to a variable?"
    question_type := QuestionType.multiple_choice
    options := some ["Alpha", "Beta", "Gamma", "Delta"]
    correct_answer := "Beta"
    difficulty := DifficultyLevel.beginner
    blooms_level := BloomsLevel.understand
    explanation := some "Variables are names that reference objects."
    hints := some ["Think about the reference model"]
    created_at := some sampleTs }

/-- The question produced from `mcBadAnswerInput`: its `correct_answer` is
not among its options. -/
def mcBadAnswerQuestion : Question :=
  { mcQuestion with
      options := some ["Alpha", "Beta"]
      correct_answer := "Gamma" }

/-- The question produced from `mcOmittedOptionsInput`: `options` is the
unvalidated default `None`. -/
def mcOmittedQuestion : Question :=
  { mcQuestion with options := none }

/-- The question produced from `tfQuestionInput`. -/
def tfQuestion : Question :=
  { mcQuestion with
      question_id := "q-variables-tf-01"
      question_type := QuestionType.true_false
      options := some ["True", "False"]
      correct_answer := "True" }

/-- The question produced from `tfOmittedOptionsInput`: a true/false
question whose `options` is the unvalidated default `None`. -/
def tfOmittedQuestion : Question :=
  { tfQuestion with options := none }

/-- A concrete batch item wrapping `mcQuestion`. -/
def sampleBatchItem : BatchItem := BatchItem.question mcQuestion

/-- A batch response whose counters do not add up: 3 total, 1 passed,
1 failed. -/
def c5Response : BatchValidationResponse :=
  { total_items := 3
    passed := 1
    failed := 1
    reports := []
    timestamp := sampleTs }

/-- C1: the claim says `overall_score == sum(criterion scores)` is enforced
at construction, so the boundary tuple (20,15,15,10,10,10,10,5,3,2) with
`overall_score = 100` is accepted and every mismatching report is rejected.
The code does the opposite: the ten criterion fields are declared after
`overall_score`, so `validate_overall_score` finds none of them in
`info.data` and compares the supplied value against 0.  The boundary report
is therefore rejected, while a report with `overall_score = 0` and
criterion scores summing to 85 is accepted — a constructible report
violating the claimed invariant. -/
theorem c1_overall_score_sum_not_enforced :
    exceptOk (mkQualityReport sampleTs boundaryReportInput) = false ∧
      mkQualityReport sampleTs mismatchReportInput =
        Except.ok mismatchReport ∧
      criteriaSum mismatchReport = 85 ∧ mismatchReport.overall_score = 0 ∧
      mismatchReport.overall_score ≠ criteriaSum mismatchReport :=
  ⟨by decide, by rfl, by decide, by decide, by decide⟩

/-- C2: for every constructible `QualityReport`, the stored
`passes_quality` equals `(overall_score ≥ 85) && (all core-named gates
passed)` and equals the supplied value, so a report supplied with any
other `passes_quality` is rejected at construction; and the recomputed
verdict takes the claimed concrete values: score 85 with the four core
gates passing gives true, score 84 gives false, score 90 with `exec_ok`
failed gives false. -/
theorem c2_passes_quality_formula :
    (∀ (now : String) (inp : QualityReportInput) (r : QualityReport),
        mkQualityReport now inp = Except.ok r →
          r.passes_quality =
              (decide (85 ≤ r.overall_score) && gatesPass r.gates) ∧
            inp.passes_quality = r.passes_quality) ∧
      expected_pass 85 allCoreGatesPass = true ∧
      expected_pass 84 allCoreGatesPass = false ∧
      expected_pass 90 gatesExecFail = false := by
  refine ⟨?_, by decide, by decide, by decide⟩
  intro now inp r h
  obtain ⟨h1, h2, h3, h4, h5, h6⟩ := mkQualityReport_ok_facts now inp r h
  refine ⟨?_, h4.symm⟩
  rw [h5]
  rfl

/-- C2 witness: the formula facts of `c2_passes_quality_formula`
instantiated at a concrete constructible report. -/
theorem c2_passes_quality_formula_witness :
    mkQualityReport sampleTs zeroReportInput = Except.ok zeroReport ∧
      zeroReport.passes_quality =
        (decide (85 ≤ zeroReport.overall_score) && gatesPass zeroReport.gates) :=
  ⟨by rfl,
    (c2_passes_quality_formula.1 sampleTs zeroReportInput zeroReport
        (by rfl)).1⟩

/-- C3: gates with non-core names never affect the verdict: appending (or,
reading the equation right to left, removing) a non-core gate leaves the
recomputed `passes_quality` unchanged; the verdict depends only on the
core-named gates; and concretely a score of 90 with the four core gates
passing and a failing non-core gate still yields verdict true. -/
theorem c3_noncore_gates_no_effect :
    (∀ (overall_score : Int) (gates : List GateStatus) (g : GateStatus),
        coreGates.contains g.name = false →
          expected_pass overall_score (gates ++ [g]) =
            expected_pass overall_score gates) ∧
      (∀ (overall_score : Int) (gates : List GateStatus),
          expected_pass overall_score
              (gates.filter fun gate => coreGates.contains gate.name) =
            expected_pass overall_score gates) ∧
      expected_pass 90 gatesWithNoncoreFail = true := by
  refine ⟨?_, expected_pass_filter_core, by decide⟩
  intro os gates g hg
  unfold expected_pass
  rw [gatesPass_append_noncore gates g hg]

/-- C3 witness: appending the failing non-core gate `style_ok` to the
all-passing core gates leaves the verdict unchanged. -/
theorem c3_noncore_gates_no_effect_witness :
    coreGates.contains "style_ok" = false ∧
      expected_pass 90
          (allCoreGatesPass ++ [{ name := "style_ok", passed := false }]) =
        expected_pass 90 allCoreGatesPass :=
  ⟨by decide,
    c3_noncore_gates_no_effect.1 90 allCoreGatesPass
      { name := "style_ok", passed := false } (by decide)⟩

/-- C4: batch-size bounds at the request boundary: an items sequence of
length 1 to 100 is accepted structurally (for either declared validation
type), an empty sequence is rejected and a sequence longer than 100 is
rejected, in each case by the length alone — the quantification over
arbitrary item lists shows the decision never looks at item contents — and
the concrete boundaries behave as claimed: exactly 100 items succeed, 0
and 101 fail. -/
theorem c4_batch_size_bounds :
    (∀ (items : List BatchItem) (vt : String) (strict : Bool),
        1 ≤ items.length → items.length ≤ 100 →
        (vt = "quick" ∨ vt = "full") →
          exceptOk (mkBatchValidationRequest items vt strict) = true) ∧
      (∀ (items : List BatchItem) (vt : String) (strict : Bool),
          items.length = 0 →
            exceptOk (mkBatchValidationRequest items vt strict) = false) ∧
      (∀ (items : List BatchItem) (vt : String) (strict : Bool),
          100 < items.length →
            exceptOk (mkBatchValidationRequest items vt strict) = false) ∧
      exceptOk (mkBatchValidationRequest
        (List.replicate 100 sampleBatchItem) "full" true) = true ∧
      exceptOk (mkBatchValidationRequest
        (List.replicate 101 sampleBatchItem) "full" true) = false ∧
      exceptOk (mkBatchValidationRequest [] "full" true) = false := by
  refine ⟨?_, ?_, ?_, by decide, by decide, by decide⟩
  · intro items vt strict hlo hhi hvt
    unfold mkBatchValidationRequest
    rw [if_neg (by omega), if_neg (by omega),
      if_neg (by rcases hvt with rfl | rfl <;> simp)]
    rfl
  · intro items vt strict hlen
    unfold mkBatchValidationRequest
    rw [if_pos (by omega)]
    rfl
  · intro items vt strict hlen
    unfold mkBatchValidationRequest
    rw [if_neg (by omega), if_pos (by omega)]
    rfl

/-- C4 witness: the acceptance statement of `c4_batch_size_bounds`
instantiated at a concrete one-item batch. -/
theorem c4_batch_size_bounds_witness :
    exceptOk (mkBatchValidationRequest [sampleBatchItem] "full" true) = true :=
  c4_batch_size_bounds.1 [sampleBatchItem] "full" true (by decide) (by decide)
    (Or.inr rfl)

/-- C5 counterexample: the claim that no batch result violating the count
equation is constructible is false: the model accepts `total_items = 3`
with `passed = 1` and `failed = 1` (and the model has no errored field at
all), so a violating response is constructed without error. -/
theorem c5_counterexample :
    mkBatchValidationResponse sampleTs 3 1 1 [] none = Except.ok c5Response ∧
      c5Response.total_items ≠ c5Response.passed + c5Response.failed :=
  ⟨by rfl, by decide⟩

/-- C5 amended: `BatchValidationResponse` enforces no relation between its
counters (its only validator is the timestamp default): construction
always succeeds and stores the supplied counters verbatim, whatever their
values; no ordering relation to any input sequence is imposed either. -/
theorem c5_no_count_invariant (now : String) (total passed failed : Int)
    (reports : List QualityReport) (ts : Option String) :
    mkBatchValidationResponse now total passed failed reports ts =
      Except.ok
        { total_items := total
          passed := passed
          failed := failed
          reports := reports
          timestamp := ts.getD now } := by
  cases ts <;> rfl

/-- C6 counterexample: the claim that a multiple-choice question whose
`correct_answer` is not among its options is rejected is false: the code
only checks the option count, so this question constructs successfully
with `correct_answer` outside its options. -/
theorem c6_counterexample :
    mkQuestion sampleTs mcBadAnswerInput = Except.ok mcBadAnswerQuestion ∧
      mcBadAnswerQuestion.options = some ["Alpha", "Beta"] ∧
      mcBadAnswerQuestion.correct_answer ∉ ["Alpha", "Beta"] :=
  ⟨by rfl, by decide, by decide⟩

/-- C6 amended: for a multiple-choice question constructed with the
`options` field supplied, success forces the supplied value to be a list
of 2 to 6 options (in particular a question with a single option is
rejected); membership of `correct_answer` in the options is not checked,
and an omitted `options` field skips the check entirely. -/
theorem c6_mc_supplied_options_bounds :
    (∀ (now : String) (inp : QuestionInput) (q : Question)
        (v : Option (List String)),
        inp.question_type = QuestionType.multiple_choice →
        inp.options = some v →
        mkQuestion now inp = Except.ok q →
          ∃ l, v = some l ∧ 2 ≤ l.length ∧ l.length ≤ 6 ∧
            q.options = some l) ∧
      exceptOk (mkQuestion sampleTs mcOneOptionInput) = false ∧
      exceptOk (mkQuestion sampleTs mcSevenOptionsInput) = false := by
  refine ⟨?_, by decide, by decide⟩
  intro now inp q v ht hv h
  obtain ⟨hqt, hvo⟩ := mkQuestion_ok_facts now inp q h
  rw [hv, ht] at hvo
  obtain ⟨hw, l, hl, hlo, hhi⟩ := validate_options_mc_ok v q.options hvo
  exact ⟨l, hl, hlo, hhi, by rw [hw, hl]⟩

/-- C6 witness: the bounds statement of `c6_mc_supplied_options_bounds`
instantiated at a concrete four-option question. -/
theorem c6_mc_supplied_options_bounds_witness :
    mkQuestion sampleTs mcQuestionInput = Except.ok mcQuestion ∧
      ∃ l, (some ["Alpha", "Beta", "Gamma", "Delta"] :
          Option (List String)) = some l ∧
        2 ≤ l.length ∧ l.length ≤ 6 ∧ mcQuestion.options = some l :=
  ⟨by rfl,
    c6_mc_supplied_options_bounds.1 sampleTs mcQuestionInput mcQuestion
      (some ["Alpha", "Beta", "Gamma", "Delta"]) rfl rfl (by rfl)⟩

/-- C7 counterexample: the claim that a true/false question constructs only
with options exactly `["True", "False"]` is false: omitting the `options`
field skips the check, and the question constructs with `options = None`. -/
theorem c7_counterexample :
    mkQuestion sampleTs tfOmittedOptionsInput = Except.ok tfOmittedQuestion ∧
      tfOmittedQuestion.question_type = QuestionType.true_false ∧
      tfOmittedQuestion.options ≠ some ["True", "False"] :=
  ⟨by rfl, by decide, by decide⟩

/-- C7 amended: for a true/false question constructed with the `options`
field supplied, success forces exactly `["True", "False"]` (so
`["Yes", "No"]` is rejected), and for fill_blank, code_output and
code_writing questions a supplied options list is always rejected; an
omitted `options` field skips these checks. -/
theorem c7_tf_and_optionless_types :
    (∀ (now : String) (inp : QuestionInput) (q : Question)
        (v : Option (List String)),
        inp.question_type = QuestionType.true_false →
        inp.options = some v →
        mkQuestion now inp = Except.ok q →
          v = some ["True", "False"] ∧ q.options = some ["True", "False"]) ∧
      exceptOk (mkQuestion sampleTs tfYesNoInput) = false ∧
      (∀ (now : String) (inp : QuestionInput) (l : List String),
          (inp.question_type = QuestionType.fill_blank ∨
            inp.question_type = QuestionType.code_output ∨
            inp.question_type = QuestionType.code_writing) →
          inp.options = some (some l) →
            exceptOk (mkQuestion now inp) = false) ∧
      exceptOk (mkQuestion sampleTs fbOptionsInput) = false := by
  refine ⟨?_, by decide, ?_, by decide⟩
  · intro now inp q v ht hv h
    obtain ⟨hqt, hvo⟩ := mkQuestion_ok_facts now inp q h
    rw [hv, ht] at hvo
    obtain ⟨hw, hl⟩ := validate_options_tf_ok v q.options hvo
    exact ⟨hl, by rw [hw, hl]⟩
  · intro now inp l ht hv
    cases hmk : mkQuestion now inp with
    | error e => rfl
    | ok q =>
      exfalso
      obtain ⟨hqt, hvo⟩ := mkQuestion_ok_facts now inp q hmk
      rw [hv] at hvo
      have hne := validate_options_requires_none inp.question_type (some l)
        ht (by simp)
      rw [show validateOptionsField inp.question_type (some (some l)) =
        validate_options (some inp.question_type) (some l) from rfl] at hvo
      rw [hvo] at hne
      exact Bool.noConfusion hne

/-- C7 witness: the true/false statement of `c7_tf_and_optionless_types`
instantiated at a concrete question with options `["True", "False"]`. -/
theorem c7_tf_and_optionless_types_witness :
    mkQuestion sampleTs tfQuestionInput = Except.ok tfQuestion ∧
      tfQuestion.options = some ["True", "False"] :=
  ⟨by rfl,
    (c7_tf_and_optionless_types.1 sampleTs tfQuestionInput tfQuestion
        (some ["True", "False"]) rfl rfl (by rfl)).2⟩

/-- C8 counterexample: the claim that every field of a constructed
`QualityReport` holds the same value for the report's entire lifetime is
false: `QualityReport` is not frozen, so attribute assignment on a
constructed report succeeds in place and changes the field — without
re-validation, so the new value even breaks the relationship the
`overall_score` validator checked at construction. -/
theorem c8_counterexample :
    mkQualityReport sampleTs zeroReportInput = Except.ok zeroReport ∧
      setReportOverallScore zeroReport 99 =
        Except.ok { zeroReport with overall_score := 99 } ∧
      ({ zeroReport with overall_score := 99 } : QualityReport).overall_score
        ≠ zeroReport.overall_score :=
  ⟨by rfl, by rfl, by decide⟩

/-- C8 amended: `Citation` and `CodeExample` are declared frozen and reject
in-place field assignment, but `QualityReport` declares no `model_config`,
so assignment to any field of a constructed report succeeds in place,
without re-validation; immutability is not enforced for `QualityReport`. -/
theorem c8_quality_report_not_frozen :
    (∀ (r : QualityReport) (v : Int),
        setReportOverallScore r v =
          Except.ok { r with overall_score := v }) ∧
      (∀ (r : QualityReport) (v : Bool),
          setReportPassesQuality r v =
            Except.ok { r with passes_quality := v }) ∧
      (∀ (c : Citation) (v : String),
          setCitationTitle c v = Except.error "instance is frozen") ∧
      qualityReportFrozen = false ∧ citationFrozen = true ∧
      codeExampleFrozen = true :=
  ⟨fun _ _ => rfl, fun _ _ => rfl, fun _ _ => rfl, rfl, rfl, rfl⟩

/-- C9: missing core gates pass vacuously: a gate list with no core-named
entry (in particular the empty list) makes the core-gate conjunct of the
verdict true, so for every constructible report without core-named gates
the stored `passes_quality` reduces to the score threshold alone — an
absent core gate never forces the verdict to false. -/
theorem c9_missing_core_gates_vacuous :
    (∀ gates : List GateStatus,
        (∀ g ∈ gates, coreGates.contains g.name = false) →
          gatesPass gates = true) ∧
      gatesPass [] = true ∧
      (∀ (now : String) (inp : QualityReportInput) (r : QualityReport),
          mkQualityReport now inp = Except.ok r →
          (∀ g ∈ r.gates, coreGates.contains g.name = false) →
            r.passes_quality = decide (85 ≤ r.overall_score)) := by
  refine ⟨gatesPass_all_noncore, rfl, ?_⟩
  intro now inp r h hg
  obtain ⟨h1, h2, h3, h4, h5, h6⟩ := mkQualityReport_ok_facts now inp r h
  rw [h5]
  unfold expected_pass
  rw [gatesPass_all_noncore r.gates hg, Bool.and_true]

/-- C9 witness: the reduction statement of `c9_missing_core_gates_vacuous`
instantiated at a concrete constructible report with an empty gate list. -/
theorem c9_missing_core_gates_vacuous_witness :
    mkQualityReport sampleTs zeroReportInput = Except.ok zeroReport ∧
      zeroReport.passes_quality = decide (85 ≤ zeroReport.overall_score) :=
  ⟨by rfl,
    c9_missing_core_gates_vacuous.2.2 sampleTs zeroReportInput zeroReport
      (by rfl) (by intro g hg; cases hg)⟩

/-- C10: omitted options bypass the per-type check: a question constructed
without supplying the `options` field is accepted whenever the remaining
structural checks pass (whatever its question type, in particular
multiple_choice and true_false), storing `options = None`; whereas
supplying `options=None` explicitly to a multiple-choice question always
fails construction. -/
theorem c10_omitted_options_bypass :
    (∀ (now : String) (inp : QuestionInput),
        inp.options = none →
        matchesIdPattern inp.question_id = true →
        matchesIdPattern inp.concept_id = true →
        10 ≤ inp.question_text.length → inp.question_text.length ≤ 500 →
        1 ≤ inp.correct_answer.length →
          exceptOk (mkQuestion now inp) = true) ∧
      mkQuestion sampleTs mcOmittedOptionsInput =
        Except.ok mcOmittedQuestion ∧
      mcOmittedQuestion.options = none ∧
      mkQuestion sampleTs tfOmittedOptionsInput =
        Except.ok tfOmittedQuestion ∧
      (∀ (now : String) (inp : QuestionInput),
          inp.question_type = QuestionType.multiple_choice →
          inp.options = some none →
            exceptOk (mkQuestion now inp) = false) := by
  refine ⟨?_, by rfl, by decide, by rfl,
    fun now inp ht hopt => mkQuestion_mc_explicit_none_error now inp ht hopt⟩
  intro now inp hopt h1 h2 h3 h4 h5
  rw [mkQuestion_omitted_ok now inp hopt h1 h2 h3 h4 h5]
  rfl

/-- C10 witness: the two quantified statements of
`c10_omitted_options_bypass` instantiated at concrete inputs: a true/false
question with omitted options is accepted, a multiple-choice question with
an explicit `options=None` is rejected. -/
theorem c10_omitted_options_bypass_witness :
    exceptOk (mkQuestion sampleTs tfOmittedOptionsInput) = true ∧
      exceptOk (mkQuestion sampleTs mcExplicitNoneInput) = false :=
  ⟨c10_omitted_options_bypass.1 sampleTs tfOmittedOptionsInput rfl
      (by decide) (by decide) (by decide) (by decide) (by decide),
    c10_omitted_options_bypass.2.2.2.2 sampleTs mcExplicitNoneInput rfl rfl⟩

end Aethelgard
